import Mathlib

/-!
Shallow embedding of the user-prompt and project-bootstrap layer of the
Dart-Code extension (`src/webpack.config.js`, which bundles the webpack
config together with the extension source: `showUserPrompts`,
`showDevToolsNotificationIfAppropriate`, the prompt helpers, and the
trigger-file handlers `handleStagehandTrigger`, `handleFlutterCreateTrigger`,
`handleNewProjects`, `createDartProject`, `createFlutterProject`,
`handleFlutterWelcome`, `handleDartWelcome`).

External collaborators (the VS Code window/command API, the filesystem and
`JSON.parse`) are modelled as explicit parameters: the environment supplies
the user's choice for each displayed message, the existence and parsed
content of each marker file, and the result code of each invoked command.
Persisted extension state is passed and returned explicitly.
-/

/-! ## Devtools notification throttle -/

/-- Modelled from the spec: `noRepeatPromptThreshold` is imported from
`./constants`, which is not part of the sources; the spec fixes it as a
20-hour threshold (in epoch milliseconds, matching `Date.now()`). -/
def noRepeatPromptThreshold : Int := 20 * 60 * 60 * 1000

/-- The three persisted devtools-notification fields of `Context`
(the `Context` class itself lives in `./context`, outside the sources;
the spec documents the fields: shown-count, last-shown epoch-millis
timestamp, do-not-show flag).  `lastShown : Option Nat` models the
JavaScript `number | undefined`: `none` is `undefined` (never written). -/
structure DevToolsState where
  devToolsNotificationLastShown : Option Nat
  devToolsNotificationsShown : Nat
  devToolsNotificationDoNotShow : Bool
  deriving Repr, DecidableEq

/-- JavaScript truthiness of the `number | undefined` value `lastShown`
as used in `if (lastShown && ...)`: `undefined` and `0` are falsy. -/
def lastShownTruthy : Option Nat → Bool
  | none => false
  | some n => n != 0

/-- The numeric value of `lastShown` used in `Date.now() - lastShown`
(only reached when truthy, so the default for `none` is irrelevant). -/
def lastShownVal : Option Nat → Int
  | none => 0
  | some n => (n : Int)

/-- The user's resolution of the three-choice devtools notification
(`openDevToolsAction`, `noThanksAction`, `doNotAskAgainAction`, or
dismissing the message, which resolves the thenable with `undefined`). -/
inductive DevToolsChoice
  | openDevTools
  | noThanks
  | doNotAskAgain
  | dismissed
  deriving Repr, DecidableEq

/-- Everything observable about one call to
`showDevToolsNotificationIfAppropriate`: the state afterwards, whether the
notification was displayed, the returned boolean, and whether the
`dart.openDevTools` host command was executed. -/
structure DevToolsOutcome where
  state : DevToolsState
  displayed : Bool
  result : Bool
  openedDevTools : Bool
  deriving Repr, DecidableEq

/-- `showDevToolsNotificationIfAppropriate(context)`.  `now` is the value of
`Date.now()` at the call, and `choice` is the environment's resolution of
`vs.window.showInformationMessage` (consumed only if the display is
reached). -/
def showDevToolsNotificationIfAppropriate (ctx : DevToolsState) (now : Nat)
    (choice : DevToolsChoice) : DevToolsOutcome :=
  let lastShown := ctx.devToolsNotificationLastShown
  let timesShown := ctx.devToolsNotificationsShown
  let doNotShow := ctx.devToolsNotificationDoNotShow
  -- Don't show this notification more than 10 times or if user said not to.
  if doNotShow || timesShown ≥ 10 then
    ⟨ctx, false, false, false⟩
  -- Don't show this notification if we've shown it in the last 20 hours.
  else if lastShownTruthy lastShown &&
      ((now : Int) - lastShownVal lastShown < noRepeatPromptThreshold) then
    ⟨ctx, false, false, false⟩
  else
    let ctx' : DevToolsState :=
      { ctx with
        devToolsNotificationsShown := timesShown + 1
        devToolsNotificationLastShown := some now }
    match choice with
    | .doNotAskAgain =>
        ⟨{ ctx' with devToolsNotificationDoNotShow := true }, true, false, false⟩
    | .openDevTools => ⟨ctx', true, true, true⟩
    | _ => ⟨ctx', true, false, false⟩

/-- A sequence of calls to `showDevToolsNotificationIfAppropriate`, each with
its own `Date.now()` value and environment choice; returns the final state
and the list of per-call outcomes. -/
def runDevToolsCalls (ctx : DevToolsState) :
    List (Nat × DevToolsChoice) → DevToolsState × List DevToolsOutcome
  | [] => (ctx, [])
  | (now, choice) :: rest =>
      let o := showDevToolsNotificationIfAppropriate ctx now choice
      ((runDevToolsCalls o.state rest).1, o :: (runDevToolsCalls o.state rest).2)

/-! ## Prompt gate (`showUserPrompts`, `showPrompt`, the two prompt handlers) -/

/-- The persisted string-keyed state accessed through `context.get` /
`context.update` (the `Context` class lives in `./context`, outside the
sources; the spec documents it as a generic get/update key-value store with
boolean values for `hasPrompted.<id>` keys).  Modelled as an association
list; `lookup` is the most recent write. -/
def StateStore := List (String × Bool)

/-- `context.get(stateKey)` for a boolean key: `none` is `undefined`. -/
def StateStore.get (s : StateStore) (key : String) : Option Bool :=
  match s with
  | [] => none
  | (k, v) :: rest => if k = key then some v else StateStore.get rest key

/-- `context.update(stateKey, value)`. -/
def StateStore.update (s : StateStore) (key : String) (v : Bool) : StateStore :=
  (key, v) :: s

def promptPrefix : String := "hasPrompted."

def installFlutterExtensionPromptKey : String := "install_flutter_extension"

/-- `hasPrompted(key)`: `context.get(promptPrefix + key) === true`. -/
def hasPrompted (store : StateStore) (key : String) : Bool :=
  store.get (promptPrefix ++ key) == some true

/-- Which prompt `showUserPrompts` displayed. -/
inductive UserPrompt
  | installFlutterExtension
  | releaseNotes (version : String)
  deriving Repr, DecidableEq

/-- The boolean inputs of `showUserPrompts` that come from the workspace and
build environment: `workspaceContext.hasAnyFlutterProjects`,
`hasFlutterExtension`, `isDevExtension` (the latter two are constants of
`./utils`, outside the sources), and the `extensionVersion` string. -/
structure PromptEnv where
  hasAnyFlutterProjects : Bool
  hasFlutterExtension : Bool
  isDevExtension : Bool
  extensionVersion : String
  deriving Repr, DecidableEq

/-- The release-notes state key for this version:
`release_notes_${extensionVersion}`. -/
def releaseNotesKeyForVersion (extensionVersion : String) : String :=
  "release_notes_" ++ extensionVersion

/-- The prompt-selection logic of `showUserPrompts` (its two guarded
early-return `showPrompt` calls), as the list of prompts it displays, in
order.  The function body returns at the first prompt it shows, so the
source can display at most one; the list records exactly the `showPrompt`
calls made. -/
def showUserPromptsShown (store : StateStore) (env : PromptEnv) :
    List UserPrompt :=
  if env.hasAnyFlutterProjects && !env.hasFlutterExtension &&
      !(hasPrompted store installFlutterExtensionPromptKey) then
    [.installFlutterExtension]
  else if !env.isDevExtension &&
      !(hasPrompted store (releaseNotesKeyForVersion env.extensionVersion)) then
    [.releaseNotes env.extensionVersion]
  else
    []

/-- The resolution of one prompt thenable: `.ok b` is a fulfilled promise
with value `b`, `.error e` a rejection with an error whose `message` is
`e`. -/
def PromptResolution := Except String Bool

/-- `showPrompt(key, prompt)`: awaits the prompt and either persists the
resolution under `promptPrefix + key` (fulfilled) or routes the error to
`error`, which calls `vs.window.showErrorMessage(err.message)` (rejected).
Returns the new store and the error message shown, if any. -/
def showPrompt (store : StateStore) (key : String) (res : PromptResolution) :
    StateStore × Option String :=
  match res with
  | .ok b => (store.update (promptPrefix ++ key) b, none)
  | .error e => (store, some e)

/-- `promptToInstallFlutterExtension()`: `response` is the environment's
resolution of `showInformationMessage` (`some "Show Me"` for the button,
`none` for Close/dismissal).  Returns (opened marketplace URL in browser?,
resolution value). -/
def promptToInstallFlutterExtension (response : Option String) :
    Bool × Bool :=
  let openedBrowser := response.isSome
  -- Always mark this as done; we don't want to re-prompt if the user clicks Close.
  (openedBrowser, true)

/-- `promptToShowReleaseNotes(versionDisplay, versionLink)`: `response` as
above (`some "Show Release Notes"` for the button).  Returns (opened
release-notes URL in browser?, resolution value). -/
def promptToShowReleaseNotes (_versionDisplay _versionLink : String)
    (response : Option String) : Bool × Bool :=
  let openedBrowser := response.isSome
  -- Always mark this as done; we don't want to prompt the user multiple times.
  (openedBrowser, true)

/-! ## Trigger-file watcher

Each handler is modelled as the ordered list of its observable events, split
into the segment that runs synchronously when the handler is called (up to
the first `await` of a host-command result) and the continuation that runs
only after that command resolves.  `handleNewProjects` calls the `async`
handlers without awaiting them (a plain `forEach`), so under the host's
single-threaded event loop every synchronous segment of every folder runs
before any continuation does. -/

/-- One observable side effect of trigger handling. -/
inductive TriggerEvent
  | showError (msg : String)
  | deleteFile (file : String)
  | invokeDartCreate (projectPath templateName : String)
  | invokeFlutterCreate (projectPath : String) (projectName sampleID : Option String)
  | getPackages (folderPath : String)
  | openFile (file : String)
  | showInfo (msg : String)
  deriving Repr, DecidableEq

/-- The events of one un-awaited async handler call: `sync` runs to the
first suspension during the call itself; `deferred` runs when the awaited
host commands resolve, after the caller's synchronous pass has finished. -/
structure AsyncTask where
  sync : List TriggerEvent
  deferred : List TriggerEvent
  deriving Repr, DecidableEq

/-- `path.join(a, b)` for the forward-slash paths used here. -/
def joinPath (a b : String) : String := a ++ "/" ++ b

/-- `path.basename`: the final path segment (the characters after the last
`/`; trailing separators do not occur in the workspace-folder paths used
here). -/
def basename (p : String) : String :=
  ⟨((p.data.reverse.takeWhile fun c => c ≠ '/')).reverse⟩

/-- JavaScript `String.prototype.trim`: strip leading and trailing
whitespace (modelled with `Char.isWhitespace`, covering the ASCII
whitespace that occurs in trigger files). -/
def jsTrim (s : String) : String :=
  ⟨((s.data.dropWhile Char.isWhitespace).reverse.dropWhile
    Char.isWhitespace).reverse⟩

/-- JavaScript `String.prototype.replace` with a string pattern: replaces
only the first occurrence of `pat` (worker on character lists). -/
def replaceFirstAux (pat rep : List Char) : List Char → List Char
  | [] => []
  | c :: rest =>
    if pat.isPrefixOf (c :: rest) then rep ++ (c :: rest).drop pat.length
    else c :: replaceFirstAux pat rep rest

/-- `s.replace(pat, rep)` (first occurrence only, as for a string pattern
in JavaScript). -/
def replaceFirst (s pat rep : String) : String :=
  ⟨replaceFirstAux pat.data rep.data s.data⟩

/-- The `StagehandTemplate` descriptor parsed from a scaffolding trigger
file (`./pub/stagehand`, fields as used here: `name`, `label`,
`entrypoint`). -/
structure StagehandTemplate where
  name : String
  label : String
  entrypoint : String
  deriving Repr, DecidableEq

/-- Modelled from the spec: the fixed marker filenames are constants of
`./utils`, outside the sources; only their fixedness matters, no claim
depends on the actual values. -/
def DART_STAGEHAND_PROJECT_TRIGGER_FILE : String := "dart.create"

/-- Modelled from the spec: see `DART_STAGEHAND_PROJECT_TRIGGER_FILE`. -/
def FLUTTER_STAGEHAND_PROJECT_TRIGGER_FILE : String := "flutter.stagehand.create"

/-- Modelled from the spec: see `DART_STAGEHAND_PROJECT_TRIGGER_FILE`. -/
def FLUTTER_CREATE_PROJECT_TRIGGER_FILE : String := "flutter.create"

/-- JavaScript truthiness of a `string | undefined` value (`undefined` and
the empty string are falsy). -/
def optStrTruthy : Option String → Bool
  | none => false
  | some s => s != ""

/-- `createDartProject(projectPath, templateName)`: the
`_dart.create` command invocation it performs (its result code is supplied
by the environment). -/
def createDartProject (projectPath templateName : String) : TriggerEvent :=
  .invokeDartCreate projectPath templateName

/-- `createFlutterProject(projectPath, sampleID)`: the `_flutter.create`
command invocation it performs, with
`projectName = sampleID ? "sample" : undefined`. -/
def createFlutterProject (projectPath : String) (sampleID : Option String) :
    TriggerEvent :=
  let projectName : Option String :=
    if optStrTruthy sampleID then some "sample" else none
  .invokeFlutterCreate projectPath projectName sampleID

/-- `code === 0`: success of a create command's integer result code. -/
def createResultSuccess (code : Int) : Bool := code == 0

/-- `handleDartWelcome(workspaceFolder, template)`: open the entry file
(the descriptor's `entrypoint` with the first `__projectName__` replaced by
the folder's base name) when it exists, then show the template's label.
`entryFileExists` is the environment's answer to the `fs.existsSync` call
on the computed entry file. -/
def handleDartWelcome (wfPath : String) (template : StagehandTemplate)
    (entryFileExists : Bool) : List TriggerEvent :=
  let projectName := basename wfPath
  let entryFile :=
    joinPath wfPath (replaceFirst template.entrypoint "__projectName__" projectName)
  (if entryFileExists then [TriggerEvent.openFile entryFile] else []) ++
    [TriggerEvent.showInfo (template.label ++ " project ready!")]

/-- `handleFlutterWelcome(workspaceFolder, sampleID)`: open `lib/main.dart`
when it exists, then show the sample-specific or the generic ready
message (JavaScript truthiness on `sampleID`). -/
def handleFlutterWelcome (wfPath : String) (sampleID : Option String)
    (entryFileExists : Bool) : List TriggerEvent :=
  let entryFile := joinPath wfPath "lib/main.dart"
  (if entryFileExists then [TriggerEvent.openFile entryFile] else []) ++
    [if optStrTruthy sampleID then
      TriggerEvent.showInfo
        (sampleID.getD "" ++ " sample ready! Connect a device and press F5 to run.")
    else
      TriggerEvent.showInfo
        "Your Flutter project is ready! Connect a device and press F5 to start running."]

/-- The environment of one `handleStagehandTrigger` call: whether the marker
file exists, the result of `JSON.parse` on its trimmed content (`none` for
a parse exception — `JSON.parse` is a host collaborator), the result code
of `_dart.create`, and whether the computed entry file exists. -/
structure StagehandEnv where
  triggerFileExists : Bool
  parsed : Option StagehandTemplate
  createResultCode : Int
  entryFileExists : Bool
  deriving Repr, DecidableEq

/-- `handleStagehandTrigger(wf, triggerFilename)`.  Synchronous segment:
existence check, read, parse (error message and abort on failure), marker
deletion, `_dart.create` dispatch; it suspends awaiting the create result.
Continuation (on `code === 0`): `dart.getPackages`, then
`handleDartWelcome`. -/
def handleStagehandTrigger (wfPath triggerFilename : String)
    (env : StagehandEnv) : AsyncTask :=
  let triggerFile := joinPath wfPath triggerFilename
  if env.triggerFileExists then
    match env.parsed with
    | none =>
        ⟨[TriggerEvent.showError "Failed to run Stagehand to create project"], []⟩
    | some template =>
        ⟨[TriggerEvent.deleteFile triggerFile,
          createDartProject wfPath template.name],
         if createResultSuccess env.createResultCode then
           TriggerEvent.getPackages wfPath ::
             handleDartWelcome wfPath template env.entryFileExists
         else []⟩
  else ⟨[], []⟩

/-- The environment of one `handleFlutterCreateTrigger` call: marker
existence, raw marker content (the handler trims it), `_flutter.create`
result code, and whether `lib/main.dart` exists. -/
structure FlutterCreateEnv where
  triggerFileExists : Bool
  content : String
  createResultCode : Int
  entryFileExists : Bool
  deriving Repr, DecidableEq

/-- `handleFlutterCreateTrigger(wf)`.  Synchronous segment: existence
check, read and trim (`sampleID = sampleID ? sampleID : undefined`),
marker deletion, `_flutter.create` dispatch; the `.then` continuation runs
`handleFlutterWelcome` on success. -/
def handleFlutterCreateTrigger (wfPath : String) (env : FlutterCreateEnv) :
    AsyncTask :=
  let flutterTriggerFile := joinPath wfPath FLUTTER_CREATE_PROJECT_TRIGGER_FILE
  if env.triggerFileExists then
    let trimmed := jsTrim env.content
    let sampleID : Option String := if trimmed == "" then none else some trimmed
    ⟨[TriggerEvent.deleteFile flutterTriggerFile,
      createFlutterProject wfPath sampleID],
     if createResultSuccess env.createResultCode then
       handleFlutterWelcome wfPath sampleID env.entryFileExists
     else []⟩
  else ⟨[], []⟩

/-- The per-folder environment of `handleNewProjects`: the folder's path and
the environments of its three marker checks. -/
structure FolderEnv where
  wfPath : String
  dart : StagehandEnv
  flutterStagehand : StagehandEnv
  flutterCreate : FlutterCreateEnv
  deriving Repr, DecidableEq

/-- The three handler calls `handleNewProjects` makes for one folder, in
source order. -/
def folderTasks (f : FolderEnv) : List AsyncTask :=
  [handleStagehandTrigger f.wfPath DART_STAGEHAND_PROJECT_TRIGGER_FILE f.dart,
   handleStagehandTrigger f.wfPath FLUTTER_STAGEHAND_PROJECT_TRIGGER_FILE
     f.flutterStagehand,
   handleFlutterCreateTrigger f.wfPath f.flutterCreate]

/-- The host's single-threaded event loop over un-awaited async calls: each
call's synchronous segment runs immediately, in call order; the
continuations wait on host-command promises, which cannot resolve before
the caller's synchronous pass has finished, so every deferred segment runs
after every synchronous one. -/
def runTasks (ts : List AsyncTask) : List TriggerEvent :=
  (ts.map AsyncTask.sync).flatten ++ (ts.map AsyncTask.deferred).flatten

/-- `handleNewProjects(context)`: `getDartWorkspaceFolders().forEach` over
the three un-awaited handler calls per folder; the resulting event trace
under the event loop. -/
def handleNewProjects (folders : List FolderEnv) : List TriggerEvent :=
  runTasks (folders.flatMap folderTasks)

/-- All events of one handler call, in the order they happen for that call
in isolation. -/
def AsyncTask.events (t : AsyncTask) : List TriggerEvent :=
  t.sync ++ t.deferred

/-- The trace the spec asserts for trigger handling (stated from the spec's
words, for comparison with `handleNewProjects`): each folder's three marker
checks run sequentially to completion — synchronous segment and
continuation together — before the next folder's processing begins. -/
def specSequentialTrace (folders : List FolderEnv) : List TriggerEvent :=
  (folders.map fun f => ((folderTasks f).map AsyncTask.events).flatten).flatten

/-! ## Theorems: devtools notification -/

/-- Helper: one call never decreases the shown-count. -/
theorem devToolsStep_count_le (ctx : DevToolsState) (now : Nat)
    (choice : DevToolsChoice) :
    ctx.devToolsNotificationsShown ≤
      (showDevToolsNotificationIfAppropriate ctx now choice).state.devToolsNotificationsShown := by
  unfold showDevToolsNotificationIfAppropriate
  repeat' split
  all_goals simp
  all_goals
    split
    · simp
    · split <;> simp

/-- Helper: with the opt-out flag set, a call is a no-op returning false. -/
theorem devToolsStep_optOut (ctx : DevToolsState) (now : Nat)
    (choice : DevToolsChoice) (h : ctx.devToolsNotificationDoNotShow = true) :
    showDevToolsNotificationIfAppropriate ctx now choice = ⟨ctx, false, false, false⟩ := by
  unfold showDevToolsNotificationIfAppropriate
  simp [h]

/-- C1 (amended): the claim as stated fails on a persisted zero timestamp
(see the counterexample); the code treats a zero last-shown value like an
absent one.  Amended claim: the call returns `⟨unchanged, no display,
false⟩` when the opt-out flag is set, or the shown-count is at least 10, or
the last-shown timestamp is truthy (nonzero) and within 20 hours of now;
and when the opt-out flag is clear, the count is below 10, and the
last-shown timestamp is absent, zero, or at least 20 hours old, it displays
the notification, increments the shown-count by one and stamps the current
time (before the user's choice is consulted, so for every choice). -/
theorem C1_devtools_gate (ctx : DevToolsState) (now : Nat)
    (choice : DevToolsChoice) :
    ((ctx.devToolsNotificationDoNotShow = true ∨
        10 ≤ ctx.devToolsNotificationsShown ∨
        (lastShownTruthy ctx.devToolsNotificationLastShown = true ∧
          (now : Int) - lastShownVal ctx.devToolsNotificationLastShown <
            noRepeatPromptThreshold)) →
      showDevToolsNotificationIfAppropriate ctx now choice =
        ⟨ctx, false, false, false⟩) ∧
    ((ctx.devToolsNotificationDoNotShow = false ∧
        ctx.devToolsNotificationsShown < 10 ∧
        (lastShownTruthy ctx.devToolsNotificationLastShown = false ∨
          noRepeatPromptThreshold ≤
            (now : Int) - lastShownVal ctx.devToolsNotificationLastShown)) →
      (showDevToolsNotificationIfAppropriate ctx now choice).displayed = true ∧
      (showDevToolsNotificationIfAppropriate ctx now choice).state.devToolsNotificationsShown =
        ctx.devToolsNotificationsShown + 1 ∧
      (showDevToolsNotificationIfAppropriate ctx now choice).state.devToolsNotificationLastShown =
        some now) := by
  constructor
  · intro h
    unfold showDevToolsNotificationIfAppropriate
    by_cases hd : ctx.devToolsNotificationDoNotShow = true
    · simp [hd]
    · by_cases hn : 10 ≤ ctx.devToolsNotificationsShown
      · simp [hn]
      · rcases h with h | h | ⟨h1, h2⟩
        · exact absurd h hd
        · exact absurd h hn
        · simp [hd, hn, h1, h2]
  · rintro ⟨hd, hn, ht⟩
    unfold showDevToolsNotificationIfAppropriate
    have hn' : ¬ 10 ≤ ctx.devToolsNotificationsShown := by omega
    rcases ht with ht | ht
    · cases choice <;> simp [hd, hn', ht]
    · have ht' : ¬ (now : Int) - lastShownVal ctx.devToolsNotificationLastShown <
        noRepeatPromptThreshold := by omega
      cases choice <;> simp [hd, hn', ht']

/-- C1 counterexample: the claim as stated is false.  With persisted state
`{lastShown = 0, shownCount = 0, optOut = false}` and `now = 1`, the
last-shown timestamp (epoch 0) is within 20 hours of now, so the claim
requires returning false with no display and no state change; but `0` is
falsy in `if (lastShown && ...)`, so the code displays the notification and
mutates the state. -/
theorem C1_counterexample :
    ((1 : Int) - lastShownVal (some 0) < noRepeatPromptThreshold) ∧
    (showDevToolsNotificationIfAppropriate ⟨some 0, 0, false⟩ 1 .noThanks).displayed = true ∧
    (showDevToolsNotificationIfAppropriate ⟨some 0, 0, false⟩ 1 .noThanks).state ≠
      ⟨some 0, 0, false⟩ := by
  refine ⟨by norm_num [lastShownVal, noRepeatPromptThreshold], ?_, ?_⟩ <;> decide

/-- C1 witness: both branches of the amended theorem at concrete inputs:
opt-out set is a no-op; a fresh state (never shown) displays and updates. -/
theorem C1_witness :
    showDevToolsNotificationIfAppropriate ⟨some 5, 3, true⟩ 10 .noThanks =
      ⟨⟨some 5, 3, true⟩, false, false, false⟩ ∧
    (showDevToolsNotificationIfAppropriate ⟨none, 0, false⟩ 100 .openDevTools).displayed = true := by
  exact ⟨(C1_devtools_gate ⟨some 5, 3, true⟩ 10 .noThanks).1 (Or.inl rfl),
    ((C1_devtools_gate ⟨none, 0, false⟩ 100 .openDevTools).2
      ⟨rfl, by decide, Or.inl rfl⟩).1⟩

/-- C2: across every sequence of calls to
`showDevToolsNotificationIfAppropriate` (each with its own clock value and
user choice), the shown-count is monotonically non-decreasing, and once the
do-not-show opt-out flag is true it is never cleared and no later call
displays the notification. -/
theorem C2_throttle_invariants (ctx : DevToolsState)
    (calls : List (Nat × DevToolsChoice)) :
    ctx.devToolsNotificationsShown ≤
      (runDevToolsCalls ctx calls).1.devToolsNotificationsShown ∧
    (ctx.devToolsNotificationDoNotShow = true →
      (runDevToolsCalls ctx calls).1.devToolsNotificationDoNotShow = true ∧
      ∀ o ∈ (runDevToolsCalls ctx calls).2, o.displayed = false) := by
  induction calls generalizing ctx with
  | nil => simp [runDevToolsCalls]
  | cons hd tl ih =>
    obtain ⟨now, choice⟩ := hd
    constructor
    · have h1 := devToolsStep_count_le ctx now choice
      have h2 :=
        (ih (showDevToolsNotificationIfAppropriate ctx now choice).state).1
      simp only [runDevToolsCalls]
      omega
    · intro h
      have hstep := devToolsStep_optOut ctx now choice h
      simp only [runDevToolsCalls, hstep]
      have := ih ctx
      refine ⟨(this.2 h).1, ?_⟩
      intro o ho
      rcases List.mem_cons.mp ho with rfl | ho
      · rfl
      · exact (this.2 h).2 o ho

/-- C2 witness: with the opt-out flag set in the initial state, a concrete
two-call sequence keeps the flag set, displays nothing, and does not
decrease the count. -/
theorem C2_witness :
    3 ≤ (runDevToolsCalls ⟨some 5, 3, true⟩ [(100, .openDevTools), (200, .noThanks)]).1.devToolsNotificationsShown ∧
    (runDevToolsCalls ⟨some 5, 3, true⟩ [(100, .openDevTools), (200, .noThanks)]).1.devToolsNotificationDoNotShow = true ∧
    ∀ o ∈ (runDevToolsCalls ⟨some 5, 3, true⟩ [(100, .openDevTools), (200, .noThanks)]).2,
      o.displayed = false := by
  have h := C2_throttle_invariants ⟨some 5, 3, true⟩
    [(100, .openDevTools), (200, .noThanks)]
  exact ⟨h.1, (h.2 rfl).1, (h.2 rfl).2⟩

/-- C8: when the notification is actually displayed (opt-out clear, count
below 10, last-shown falsy or at least 20 hours old), the call returns true
iff the user chose to open DevTools — in which case it executes the
`dart.openDevTools` command; "don't ask again" sets the opt-out flag and
returns false; "no thanks" or dismissal returns false, leaves the opt-out
flag clear, and runs no command. -/
theorem C8_display_resolution (ctx : DevToolsState) (now : Nat)
    (choice : DevToolsChoice)
    (hd : ctx.devToolsNotificationDoNotShow = false)
    (hc : ctx.devToolsNotificationsShown < 10)
    (ht : lastShownTruthy ctx.devToolsNotificationLastShown = false ∨
      noRepeatPromptThreshold ≤
        (now : Int) - lastShownVal ctx.devToolsNotificationLastShown) :
    (showDevToolsNotificationIfAppropriate ctx now choice).displayed = true ∧
    ((showDevToolsNotificationIfAppropriate ctx now choice).result = true ↔
      choice = .openDevTools) ∧
    ((showDevToolsNotificationIfAppropriate ctx now choice).openedDevTools = true ↔
      choice = .openDevTools) ∧
    (choice = .doNotAskAgain →
      (showDevToolsNotificationIfAppropriate ctx now choice).state.devToolsNotificationDoNotShow = true ∧
      (showDevToolsNotificationIfAppropriate ctx now choice).result = false) ∧
    (choice = .noThanks ∨ choice = .dismissed →
      (showDevToolsNotificationIfAppropriate ctx now choice).result = false ∧
      (showDevToolsNotificationIfAppropriate ctx now choice).state.devToolsNotificationDoNotShow = false ∧
      (showDevToolsNotificationIfAppropriate ctx now choice).openedDevTools = false) := by
  have hn' : ¬ 10 ≤ ctx.devToolsNotificationsShown := by omega
  unfold showDevToolsNotificationIfAppropriate
  rcases ht with ht | ht
  · cases choice <;> simp [hd, hn', ht]
  · have ht' : ¬ (now : Int) - lastShownVal ctx.devToolsNotificationLastShown <
      noRepeatPromptThreshold := by omega
    cases choice <;> simp [hd, hn', ht']

/-- C8 witness: a fresh state with each of the three explicit choices. -/
theorem C8_witness :
    (showDevToolsNotificationIfAppropriate ⟨none, 0, false⟩ 100 .openDevTools).result = true ∧
    (showDevToolsNotificationIfAppropriate ⟨none, 0, false⟩ 100 .openDevTools).openedDevTools = true ∧
    (showDevToolsNotificationIfAppropriate ⟨none, 0, false⟩ 100 .doNotAskAgain).state.devToolsNotificationDoNotShow = true ∧
    (showDevToolsNotificationIfAppropriate ⟨none, 0, false⟩ 100 .noThanks).result = false := by
  refine ⟨?_, ?_, ?_, ?_⟩
  · exact ((C8_display_resolution ⟨none, 0, false⟩ 100 .openDevTools rfl
      (by decide) (Or.inl rfl)).2.1).mpr rfl
  · exact ((C8_display_resolution ⟨none, 0, false⟩ 100 .openDevTools rfl
      (by decide) (Or.inl rfl)).2.2.1).mpr rfl
  · exact ((C8_display_resolution ⟨none, 0, false⟩ 100 .doNotAskAgain rfl
      (by decide) (Or.inl rfl)).2.2.2.1 rfl).1
  · exact ((C8_display_resolution ⟨none, 0, false⟩ 100 .noThanks rfl
      (by decide) (Or.inl rfl)).2.2.2.2 (Or.inl rfl)).1

/-! ## Theorems: prompt gate -/

/-- C3: per activation, `showUserPrompts` displays at most one candidate
prompt — the first in fixed order whose precondition holds and whose key is
unseen: the companion-extension (Flutter) install prompt exactly when the
workspace has Flutter projects, the Flutter extension is absent, and its
key is unseen; else the release-notes prompt exactly when not a dev build
and the per-version key is unseen. -/
theorem C3_first_eligible_prompt (store : StateStore) (env : PromptEnv) :
    (showUserPromptsShown store env).length ≤ 1 ∧
    (showUserPromptsShown store env = [.installFlutterExtension] ↔
      (env.hasAnyFlutterProjects = true ∧ env.hasFlutterExtension = false ∧
        hasPrompted store installFlutterExtensionPromptKey = false)) ∧
    (showUserPromptsShown store env = [.releaseNotes env.extensionVersion] ↔
      (¬(env.hasAnyFlutterProjects = true ∧ env.hasFlutterExtension = false ∧
          hasPrompted store installFlutterExtensionPromptKey = false) ∧
        env.isDevExtension = false ∧
        hasPrompted store (releaseNotesKeyForVersion env.extensionVersion) = false)) := by
  obtain ⟨hf, hx, hd, v⟩ := env
  unfold showUserPromptsShown
  cases hf <;> cases hx <;> cases hd <;>
    cases hP : hasPrompted store installFlutterExtensionPromptKey <;>
    cases hR : hasPrompted store (releaseNotesKeyForVersion v) <;>
    simp [hP, hR]

/-- Helper: marking a key as prompted via a fulfilled `showPrompt` with
resolution `b` makes `hasPrompted` of that key equal `b`. -/
theorem hasPrompted_after_showPrompt (store : StateStore) (key : String)
    (b : Bool) :
    hasPrompted (showPrompt store key (Except.ok b)).1 key = b := by
  cases b <;> simp [showPrompt, hasPrompted, StateStore.update, StateStore.get]

/-- C9: a prompt's resolution is persisted under `"hasPrompted." + id` only
on successful resolution; resolving `true` marks the id seen so neither
candidate prompt is displayed again for it, any other successful resolution
leaves the id re-offerable, and a rejected prompt surfaces its error
message while leaving the persisted state unchanged. -/
theorem C9_prompt_resolution_persistence (store : StateStore) (key : String)
    (b : Bool) (e : String) (env : PromptEnv) :
    showPrompt store key (Except.ok b) =
      (store.update (promptPrefix ++ key) b, none) ∧
    hasPrompted (showPrompt store key (Except.ok true)).1 key = true ∧
    hasPrompted (showPrompt store key (Except.ok false)).1 key = false ∧
    UserPrompt.installFlutterExtension ∉
      showUserPromptsShown
        (showPrompt store installFlutterExtensionPromptKey (Except.ok true)).1 env ∧
    UserPrompt.releaseNotes env.extensionVersion ∉
      showUserPromptsShown
        (showPrompt store (releaseNotesKeyForVersion env.extensionVersion)
          (Except.ok true)).1 env ∧
    showPrompt store key (Except.error e) = (store, some e) := by
  refine ⟨rfl, hasPrompted_after_showPrompt store key true,
    hasPrompted_after_showPrompt store key false, ?_, ?_, rfl⟩
  · have h1 := hasPrompted_after_showPrompt store
      installFlutterExtensionPromptKey true
    simp only [showUserPromptsShown, h1]
    split
    · simp_all
    · split <;> simp
  · have h2 := hasPrompted_after_showPrompt store
      (releaseNotesKeyForVersion env.extensionVersion) true
    simp only [showUserPromptsShown, h2]
    split
    · simp
    · split <;> simp_all

/-- C10: both prompt handlers resolve to `true` for every user response
(button, Close, or dismissal), so a single display, once resolved through
`showPrompt`, permanently marks the prompt id seen and the prompt is never
re-offered by `showUserPrompts`. -/
theorem C10_handlers_resolve_true (r : Option String) (v l : String)
    (store : StateStore) (env : PromptEnv) :
    (promptToInstallFlutterExtension r).2 = true ∧
    (promptToShowReleaseNotes v l r).2 = true ∧
    UserPrompt.installFlutterExtension ∉
      showUserPromptsShown
        (showPrompt store installFlutterExtensionPromptKey
          (Except.ok (promptToInstallFlutterExtension r).2)).1 env ∧
    UserPrompt.releaseNotes env.extensionVersion ∉
      showUserPromptsShown
        (showPrompt store (releaseNotesKeyForVersion env.extensionVersion)
          (Except.ok (promptToShowReleaseNotes v l r).2)).1 env := by
  refine ⟨rfl, rfl, ?_, ?_⟩
  · have h1 := hasPrompted_after_showPrompt store
      installFlutterExtensionPromptKey true
    simp only [promptToInstallFlutterExtension, showUserPromptsShown, h1]
    split
    · simp_all
    · split <;> simp
  · have h2 := hasPrompted_after_showPrompt store
      (releaseNotesKeyForVersion env.extensionVersion) true
    simp only [promptToShowReleaseNotes, showUserPromptsShown, h2]
    split
    · simp
    · split <;> simp_all

/-! ## Theorems: trigger-file watcher -/

/-- C4: when a scaffolding trigger file exists but its trimmed content
fails JSON parsing, the handler's whole event trace is a single error
notification: the marker file is not deleted, the create command is not
invoked, and nothing further happens for that marker. -/
theorem C4_stagehand_parse_failure (wfPath triggerFilename : String)
    (env : StagehandEnv) (hex : env.triggerFileExists = true)
    (hp : env.parsed = none) :
    (handleStagehandTrigger wfPath triggerFilename env).events =
      [TriggerEvent.showError "Failed to run Stagehand to create project"] ∧
    (∀ f, TriggerEvent.deleteFile f ∉
      (handleStagehandTrigger wfPath triggerFilename env).events) ∧
    (∀ p n, TriggerEvent.invokeDartCreate p n ∉
      (handleStagehandTrigger wfPath triggerFilename env).events) := by
  simp [handleStagehandTrigger, hex, hp, AsyncTask.events]

/-- C4 witness: a concrete folder with an unparsable dart scaffolding
marker. -/
theorem C4_witness :
    (handleStagehandTrigger "/proj" DART_STAGEHAND_PROJECT_TRIGGER_FILE
        ⟨true, none, 0, true⟩).events =
      [TriggerEvent.showError "Failed to run Stagehand to create project"] :=
  (C4_stagehand_parse_failure "/proj" DART_STAGEHAND_PROJECT_TRIGGER_FILE
    ⟨true, none, 0, true⟩ rfl rfl).1

/-- C5: when the trigger content parses as a descriptor, the handler
synchronously deletes the marker and invokes `_dart.create` with the folder
path and the descriptor's `name` (in that order); exactly when the result
code is zero, the continuation triggers `dart.getPackages`, opens the entry
file obtained by replacing `__projectName__` in the descriptor's
`entrypoint` with the folder's base name (when that file exists), and shows
an informational message naming the template's label. -/
theorem C5_stagehand_success (wfPath triggerFilename : String)
    (env : StagehandEnv) (t : StagehandTemplate)
    (hex : env.triggerFileExists = true) (hp : env.parsed = some t) :
    (handleStagehandTrigger wfPath triggerFilename env).sync =
      [TriggerEvent.deleteFile (joinPath wfPath triggerFilename),
       TriggerEvent.invokeDartCreate wfPath t.name] ∧
    (env.createResultCode = 0 →
      (handleStagehandTrigger wfPath triggerFilename env).deferred =
        TriggerEvent.getPackages wfPath ::
          ((if env.entryFileExists then
              [TriggerEvent.openFile (joinPath wfPath
                (replaceFirst t.entrypoint "__projectName__" (basename wfPath)))]
            else []) ++
            [TriggerEvent.showInfo (t.label ++ " project ready!")])) ∧
    (env.createResultCode ≠ 0 →
      (handleStagehandTrigger wfPath triggerFilename env).deferred = []) := by
  refine ⟨by simp [handleStagehandTrigger, hex, hp, createDartProject], ?_, ?_⟩
  · intro h0
    simp [handleStagehandTrigger, hex, hp, createResultSuccess, h0,
      handleDartWelcome]
  · intro h0
    simp [handleStagehandTrigger, hex, hp, createResultSuccess, h0]

/-- C5 witness: the spec's example — descriptor
`{"name":"x","label":"Console App","entrypoint":"bin/__projectName__.dart"}`
in folder `/proj` with a successful create command: the marker is deleted
and the file opened is `/proj/bin/proj.dart`. -/
theorem C5_witness :
    (handleStagehandTrigger "/proj" DART_STAGEHAND_PROJECT_TRIGGER_FILE
        ⟨true, some ⟨"x", "Console App", "bin/__projectName__.dart"⟩, 0, true⟩).sync =
      [TriggerEvent.deleteFile ("/proj/" ++ DART_STAGEHAND_PROJECT_TRIGGER_FILE),
       TriggerEvent.invokeDartCreate "/proj" "x"] ∧
    (handleStagehandTrigger "/proj" DART_STAGEHAND_PROJECT_TRIGGER_FILE
        ⟨true, some ⟨"x", "Console App", "bin/__projectName__.dart"⟩, 0, true⟩).deferred =
      [TriggerEvent.getPackages "/proj",
       TriggerEvent.openFile "/proj/bin/proj.dart",
       TriggerEvent.showInfo "Console App project ready!"] := by
  have h := C5_stagehand_success "/proj" DART_STAGEHAND_PROJECT_TRIGGER_FILE
    ⟨true, some ⟨"x", "Console App", "bin/__projectName__.dart"⟩, 0, true⟩
    ⟨"x", "Console App", "bin/__projectName__.dart"⟩ rfl rfl
  refine ⟨by simpa [joinPath] using h.1, ?_⟩
  have h2 := h.2.1 rfl
  simpa [joinPath, replaceFirst, basename] using h2

/-- C6: when the framework-specific trigger file exists, the handler trims
the content, turns an empty result into an absent sample identifier,
synchronously deletes the marker and then invokes `_flutter.create` — with
project name `"sample"` plus the identifier exactly when an identifier is
present and with `undefined` for both otherwise; on a whitespace-only
trigger with a zero result code the continuation shows the generic "ready"
message that names no identifier. -/
theorem C6_flutter_trigger (wfPath : String) (env : FlutterCreateEnv)
    (hex : env.triggerFileExists = true) :
    (handleFlutterCreateTrigger wfPath env).sync =
      [TriggerEvent.deleteFile (joinPath wfPath FLUTTER_CREATE_PROJECT_TRIGGER_FILE),
       TriggerEvent.invokeFlutterCreate wfPath
         (if jsTrim env.content = "" then none else some "sample")
         (if jsTrim env.content = "" then none else some (jsTrim env.content))] ∧
    (jsTrim env.content = "" → env.createResultCode = 0 →
      (handleFlutterCreateTrigger wfPath env).deferred =
        (if env.entryFileExists then
          [TriggerEvent.openFile (joinPath wfPath "lib/main.dart")] else []) ++
        [TriggerEvent.showInfo
          "Your Flutter project is ready! Connect a device and press F5 to start running."]) := by
  constructor
  · by_cases h : jsTrim env.content = "" <;>
      simp [handleFlutterCreateTrigger, hex, createFlutterProject, optStrTruthy, h]
  · intro h h0
    simp [handleFlutterCreateTrigger, hex, createResultSuccess, h, h0,
      handleFlutterWelcome, optStrTruthy]

/-- C6 witness: a whitespace-only trigger in `/proj` with a successful
create: the marker is deleted, `_flutter.create` gets no project name and
no sample identifier, and the generic ready message is shown. -/
theorem C6_witness :
    (handleFlutterCreateTrigger "/proj" ⟨true, "  \n ", 0, true⟩).sync =
      [TriggerEvent.deleteFile ("/proj/" ++ FLUTTER_CREATE_PROJECT_TRIGGER_FILE),
       TriggerEvent.invokeFlutterCreate "/proj" none none] ∧
    (handleFlutterCreateTrigger "/proj" ⟨true, "  \n ", 0, true⟩).deferred =
      [TriggerEvent.openFile "/proj/lib/main.dart",
       TriggerEvent.showInfo
         "Your Flutter project is ready! Connect a device and press F5 to start running."] := by
  have h := C6_flutter_trigger "/proj" ⟨true, "  \n ", 0, true⟩ rfl
  have htrim : jsTrim "  \n " = "" := by decide
  refine ⟨by simpa [joinPath, htrim] using h.1, ?_⟩
  simpa [joinPath] using h.2 htrim rfl

/-- C7 counterexample: the claim as stated is false.  `handleNewProjects`
calls the `async` handlers without awaiting them, so a folder's
post-creation continuation runs only after every folder's synchronous
segment.  With two folders `/a` and `/b`, each holding a framework-create
trigger with a successful create, the actual trace differs from the
folder-by-folder sequential trace the claim asserts: `/b`'s marker deletion
(position 2) happens before `/a`'s welcome step (position 4). -/
theorem C7_counterexample :
    handleNewProjects
        [⟨"/a", ⟨false, none, 0, false⟩, ⟨false, none, 0, false⟩,
           ⟨true, "s1", 0, true⟩⟩,
         ⟨"/b", ⟨false, none, 0, false⟩, ⟨false, none, 0, false⟩,
           ⟨true, "s2", 0, true⟩⟩] ≠
      specSequentialTrace
        [⟨"/a", ⟨false, none, 0, false⟩, ⟨false, none, 0, false⟩,
           ⟨true, "s1", 0, true⟩⟩,
         ⟨"/b", ⟨false, none, 0, false⟩, ⟨false, none, 0, false⟩,
           ⟨true, "s2", 0, true⟩⟩] ∧
    (handleNewProjects
        [⟨"/a", ⟨false, none, 0, false⟩, ⟨false, none, 0, false⟩,
           ⟨true, "s1", 0, true⟩⟩,
         ⟨"/b", ⟨false, none, 0, false⟩, ⟨false, none, 0, false⟩,
           ⟨true, "s2", 0, true⟩⟩])[2]? =
      some (TriggerEvent.deleteFile "/b/flutter.create") ∧
    (handleNewProjects
        [⟨"/a", ⟨false, none, 0, false⟩, ⟨false, none, 0, false⟩,
           ⟨true, "s1", 0, true⟩⟩,
         ⟨"/b", ⟨false, none, 0, false⟩, ⟨false, none, 0, false⟩,
           ⟨true, "s2", 0, true⟩⟩])[4]? =
      some (TriggerEvent.openFile "/a/lib/main.dart") := by
  refine ⟨?_, ?_, ?_⟩ <;> decide

/-- Helper: mapping a projection over the flattened per-folder task lists
equals flattening the per-folder mapped lists. -/
theorem flatMap_map_flatten (g : AsyncTask → List TriggerEvent)
    (folders : List FolderEnv) :
    (List.map g (folders.flatMap folderTasks)).flatten =
      (folders.map fun f => ((folderTasks f).map g).flatten).flatten := by
  induction folders with
  | nil => rfl
  | cons f fs ih =>
    simp [List.flatMap_cons, List.map_append, List.flatten_append, ih]

/-- Helper: tasks with empty continuations contribute no deferred events. -/
theorem deferred_flatten_nil (ts : List AsyncTask)
    (h : ∀ t ∈ ts, t.deferred = []) :
    (ts.map AsyncTask.deferred).flatten = [] := by
  induction ts with
  | nil => rfl
  | cons t ts ih =>
    simp [h t (by simp), ih fun t' ht' => h t' (by simp [ht'])]

/-- Helper: for tasks with empty continuations, the full event list is the
synchronous segment. -/
theorem events_eq_sync_of_no_deferred (ts : List AsyncTask)
    (h : ∀ t ∈ ts, t.deferred = []) :
    (ts.map AsyncTask.events).flatten = (ts.map AsyncTask.sync).flatten := by
  induction ts with
  | nil => rfl
  | cons t ts ih =>
    simp [AsyncTask.events, h t (by simp),
      ih fun t' ht' => h t' (by simp [ht'])]

/-- C7 (amended): the synchronous portions of the marker handling —
existence check, content read and parse, marker deletion, create-command
dispatch — run folder by folder, in discovery order, with the two
scaffolding kinds before the framework kind inside each folder and no
interleaving; but the handlers are not awaited, so the post-creation
continuations (package resolution, welcome steps) of every folder run only
after all folders' synchronous portions have completed.  When no marker
handling produces a continuation, the trace coincides with the per-folder
sequential trace the spec asserts. -/
theorem C7_sync_then_deferred (folders : List FolderEnv) :
    handleNewProjects folders =
      (folders.map fun f =>
        ((folderTasks f).map AsyncTask.sync).flatten).flatten ++
      (folders.map fun f =>
        ((folderTasks f).map AsyncTask.deferred).flatten).flatten ∧
    ((∀ t ∈ folders.flatMap folderTasks, t.deferred = []) →
      handleNewProjects folders = specSequentialTrace folders) := by
  constructor
  · unfold handleNewProjects runTasks
    rw [flatMap_map_flatten, flatMap_map_flatten]
  · intro h
    unfold handleNewProjects runTasks specSequentialTrace
    rw [deferred_flatten_nil _ h, List.append_nil, flatMap_map_flatten]
    refine congrArg List.flatten (List.map_congr_left ?_)
    intro f hf
    exact (events_eq_sync_of_no_deferred (folderTasks f) fun t ht =>
      h t (List.mem_flatMap.mpr ⟨f, hf, ht⟩)).symm

/-- C7 witness: a concrete two-folder workspace where no continuation is
produced (one folder has no markers, the other a failing parse): the trace
is exactly the spec's sequential trace. -/
theorem C7_witness :
    handleNewProjects
        [⟨"/a", ⟨false, none, 0, false⟩, ⟨false, none, 0, false⟩,
           ⟨false, "", 0, false⟩⟩,
         ⟨"/b", ⟨true, none, 0, false⟩, ⟨false, none, 0, false⟩,
           ⟨false, "", 0, false⟩⟩] =
      specSequentialTrace
        [⟨"/a", ⟨false, none, 0, false⟩, ⟨false, none, 0, false⟩,
           ⟨false, "", 0, false⟩⟩,
         ⟨"/b", ⟨true, none, 0, false⟩, ⟨false, none, 0, false⟩,
           ⟨false, "", 0, false⟩⟩] :=
  (C7_sync_then_deferred _).2 (by decide)

/-- C3 witness: with empty persisted state, a Flutter workspace without the
Flutter extension on a non-dev build shows exactly the install prompt. -/
theorem C3_witness :
    showUserPromptsShown [] ⟨true, false, false, "2.0.0"⟩ =
      [UserPrompt.installFlutterExtension] :=
  (C3_first_eligible_prompt [] ⟨true, false, false, "2.0.0"⟩).2.1.mpr
    ⟨rfl, rfl, by decide⟩

/-- C9 witness: at a concrete key, a fulfilled `true` resolution marks the
key prompted, and a rejected prompt leaves the store unchanged while
surfacing the message. -/
theorem C9_witness :
    hasPrompted (showPrompt [] "k" (Except.ok true)).1 "k" = true ∧
    showPrompt [] "k" (Except.error "boom") = (([] : StateStore), some "boom") := by
  have h := C9_prompt_resolution_persistence [] "k" true "boom"
    ⟨true, false, false, "2.0.0"⟩
  exact ⟨h.2.1, h.2.2.2.2.2⟩

/-- C10 witness: with the message dismissed (no button), both handlers
still resolve `true`, and the install prompt is not re-offered after its
resolution is persisted. -/
theorem C10_witness :
    (promptToInstallFlutterExtension none).2 = true ∧
    (promptToShowReleaseNotes "2.0.0" "2-0" none).2 = true ∧
    UserPrompt.installFlutterExtension ∉
      showUserPromptsShown
        (showPrompt [] installFlutterExtensionPromptKey
          (Except.ok (promptToInstallFlutterExtension none).2)).1
        ⟨true, false, false, "2.0.0"⟩ := by
  have h := C10_handlers_resolve_true none "2.0.0" "2-0" []
    ⟨true, false, false, "2.0.0"⟩
  exact ⟨h.1, h.2.1, h.2.2.1⟩
